import Mathlib

/-!
Verification of the zerorpc client/server library.

The client-side invoke state machines are embedded from `client.go`.
The event codec, channel/multiplexer and server registry are not part of
the client source file; they are modelled from the specification where a
claim needs them, as marked on each definition.
-/

namespace ZeroRPC

/-- Heterogeneous wire values: string, integer, float, binary, nested
sequence/mapping (the tagged-union value space of the codec).  A float is
carried as its 64-bit pattern; the codec never inspects it. -/
inductive Value where
  | str (s : String)
  | int (n : Int)
  | float (bits : Nat)
  | bin (bs : List Nat)
  | seq (vs : List Value)
  | map (kvs : List (Value × Value))

/-- Event header: `message_id` is required, `response_to` and the version
tag are optional (spec §3, §4.1). -/
structure EventHeader where
  message_id : String
  response_to : Option String
  version : Option Value

/-- The unit of RPC communication: name, ordered args, header. -/
structure Event where
  header : EventHeader
  name : String
  args : List Value

/-- Errors a client call can observe. `remote args` stands for the Go
error `fmt.Errorf("%s", response.Args)` built from an `"ERR"` event;
`lostRemote` is `ErrLostRemote`; `sendFailed`/`newEventFailed` stand for
errors of `sendEvent`/`newEvent`. -/
inductive Err where
  | remote (args : List Value)
  | lostRemote
  | sendFailed (s : String)
  | newEventFailed (s : String)
  | replyMustBePointer

/-- A message arriving at a blocked invoker: either a decoded `Event` on
the channel's inbound queue (`ch.channelOutput`) or an error on its error
slot (`ch.channelErrors`). -/
def Msg : Type := Sum Event Err

/-- The receive step of `Client.Invoke` (client.go lines 96-108): wait for
whichever comes first; an `"ERR"` event returns its args with an error
built from those args, any other event returns its args with no error, an
error from the error slot returns `(nil, err)`. -/
def invokeRecv : Msg → Option (List Value) × Option Err
  | .inl response =>
      if response.name = "ERR" then
        (some response.args, some (.remote response.args))
      else
        (some response.args, none)
  | .inr e => (none, some e)

/-- The receive loop of `Client.InvokeStream` (client.go lines 213-231)
run over a finite prefix of delivered messages, with accumulator `out`.
`none` means the loop is still blocked (no terminal message arrived);
`some (res, err)` is the returned pair, where `res = none` models Go's
`nil` slice result on the error-slot path. -/
def invokeStreamLoop : List Msg → List (List Value) →
    Option (Option (List (List Value)) × Option Err)
  | [], _ => none
  | .inl response :: rest, out =>
      if response.name = "ERR" then
        some (some (out ++ [response.args]), some (.remote response.args))
      else if response.name = "OK" then
        some (some (out ++ [response.args]), none)
      else if response.name = "STREAM" then
        invokeStreamLoop rest (out ++ [response.args])
      else
        some (some out, none)
  | .inr e :: _, _ => some (none, some e)

/-- Decode failure: a malformed envelope or a missing required header
field (spec §4.1). -/
inductive DecodeError where
  | malformed
  | missingMessageId

/-- Modelled from the spec: the event codec (`EventCodec`) is not in the
client source file.  `encodeHeader` lays the header out as a wire mapping
with keys `message_id` (required), `response_to` (optional) and version
tag `v` (optional), per spec §4.1. -/
def encodeHeader (h : EventHeader) : Value :=
  Value.map ((Value.str "message_id", Value.str h.message_id) ::
    ((match h.response_to with
      | some r => [(Value.str "response_to", Value.str r)]
      | none => []) ++
     (match h.version with
      | some v => [(Value.str "v", v)]
      | none => [])))

/-- Modelled from the spec: `encode(Event)` produces the wire envelope,
the ordered triple `[header, name, args]` (spec §4.1, §6). -/
def encode (e : Event) : Value :=
  .seq [encodeHeader e.header, .str e.name, .seq e.args]

/-- Look up a string key in a decoded wire mapping. -/
def lookupKey : List (Value × Value) → String → Option Value
  | [], _ => none
  | (k, v) :: rest, key =>
      match k with
      | .str s => if s = key then some v else lookupKey rest key
      | _ => lookupKey rest key

/-- Modelled from the spec: decode the header mapping, failing when the
required `message_id` is missing; unknown version values are tolerated
(spec §4.1). -/
def decodeHeader (v : Value) : Except DecodeError EventHeader :=
  match v with
  | .map kvs =>
      match lookupKey kvs "message_id" with
      | some (.str mid) =>
          .ok { message_id := mid,
                response_to :=
                  match lookupKey kvs "response_to" with
                  | some (.str r) => some r
                  | _ => none,
                version := lookupKey kvs "v" }
      | _ => .error .missingMessageId
  | _ => .error .malformed

/-- Modelled from the spec: `decode(bytes) -> Event`, failing with
`DecodeError` on a malformed envelope or missing required header fields
(spec §4.1). -/
def decode (v : Value) : Except DecodeError Event :=
  match v with
  | .seq [h, .str name, .seq args] =>
      match decodeHeader h with
      | .ok hd => .ok { header := hd, name := name, args := args }
      | .error err => .error err
  | _ => .error .malformed

/-- A header used for concrete test events. -/
def hdr0 : EventHeader := { message_id := "m0", response_to := none, version := none }

/-- Build a concrete event with the default header. -/
def mkEv (name : String) (args : List Value) : Event :=
  { header := hdr0, name := name, args := args }

/-- Modelled from the spec: channel lifecycle states; a channel whose
liveness threshold is exceeded is marked Lost (spec §3, §4.3). -/
inductive ChanState where
  | opened
  | lost

/-- Modelled from the spec: a Channel holds an id, a `last_seen`
timestamp, a state, an error slot and a heartbeat timer (spec §3). -/
structure Channel where
  id : String
  lastSeen : Nat
  state : ChanState
  errorSlot : Option Err
  timerRunning : Bool

/-- Modelled from the spec: the Multiplexer holds a lookup entry per
currently open channel, keyed by id (spec §3, §4.3); only the key set
matters for the claims. -/
structure Mux where
  channels : List String

/-- Modelled from the spec: heartbeat interval H = 5 seconds (spec §3). -/
def heartbeatInterval : Nat := 5

/-- Modelled from the spec: liveness threshold 2×H = 10 seconds
(spec §3). -/
def livenessThreshold : Nat := 2 * heartbeatInterval

/-- Modelled from the spec: `newChannel` registers a fresh channel with
the Multiplexer and starts its heartbeat timer (spec §4.2). -/
def newChannel (mux : Mux) (id : String) : Mux × Channel :=
  ({ channels := id :: mux.channels },
   { id := id, lastSeen := 0, state := .opened, errorSlot := none,
     timerRunning := true })

/-- Modelled from the spec: `close()` stops the heartbeat timer and
unregisters the channel from the Multiplexer (spec §4.2). -/
def closeChannel (mux : Mux) (ch : Channel) : Mux × Channel :=
  ({ channels := mux.channels.filter (fun x => x ≠ ch.id) },
   { ch with timerRunning := false })

/-- Modelled from the spec: the Multiplexer's heartbeat sweep at time
`now` marks a channel that has received nothing for longer than the
liveness threshold as Lost and pushes `ErrLostRemote` into its error slot
(spec §4.3, §8). -/
def sweepChannel (now : Nat) (ch : Channel) : Channel :=
  if livenessThreshold < now - ch.lastSeen then
    { ch with state := .lost, errorSlot := some .lostRemote }
  else ch

/-- Embedding of `Client.Invoke` (client.go lines 80-109) with the channel lifecycle
made explicit: `mkEvRes` is the outcome of `newEvent`, `sendErr` the
outcome of `ch.sendEvent`, `m` the first message delivered to the blocked
select.  Returns the final Multiplexer state, the final state of the
channel the call opened (if it opened one), and the call's result.  The
`defer ch.close()` at line 89 is reflected by closing on every exit path
after `newChannel`. -/
def invokeFull (mux : Mux) (freshId : String) (mkEvRes : Except Err Event)
    (sendErr : Option Err) (m : Msg) :
    Mux × Option Channel × (Option (List Value) × Option Err) :=
  match mkEvRes with
  | .error e => (mux, none, (none, some e))
  | .ok _ =>
      let p := newChannel mux freshId
      match sendErr with
      | some e =>
          let q := closeChannel p.1 p.2
          (q.1, some q.2, (none, some e))
      | none =>
          let q := closeChannel p.1 p.2
          (q.1, some q.2, invokeRecv m)

/-- Embedding of `Client.InvokeStream` (client.go lines 195-232) with the channel
lifecycle made explicit, analogous to `invokeFull`; the loop result is
`none` while still blocked, in which case the channel stays open. -/
def invokeStreamFull (mux : Mux) (freshId : String)
    (mkEvRes : Except Err Event) (sendErr : Option Err) (msgs : List Msg) :
    Mux × Option Channel ×
      Option (Option (List (List Value)) × Option Err) :=
  match mkEvRes with
  | .error e => (mux, none, some (none, some e))
  | .ok _ =>
      let p := newChannel mux freshId
      match sendErr with
      | some e =>
          let q := closeChannel p.1 p.2
          (q.1, some q.2, some (none, some e))
      | none =>
          match invokeStreamLoop msgs [] with
          | none => (p.1, some p.2, none)
          | some r =>
              let q := closeChannel p.1 p.2
              (q.1, some q.2, some r)

/-- Modelled from the spec: server-side registration error taxonomy
(spec §4.5, §7). -/
inductive RegError where
  | duplicateTask

/-- Server task handler: ordered args in, result value and optional error
out (spec §4.5; the handler shape matches `server_test.go`). -/
def Handler : Type := List Value → Value × Option String

/-- Modelled from the spec: the Server's task registry, a mapping
`name -> handler` (spec §3). -/
structure Server where
  handlers : List (String × Handler)

/-- Does the registry already hold `name`? -/
def registered (s : Server) (name : String) : Bool :=
  s.handlers.any (fun p => p.1 = name)

/-- Modelled from the spec: `RegisterTask(name, handler)` fails with
`DuplicateTaskError` if `name` is already registered, leaving the registry
unchanged; otherwise it records the mapping (spec §4.5, §8;
exercised by `server_test.go` lines 18-22). -/
def registerTask (s : Server) (name : String) (h : Handler) :
    Option RegError × Server :=
  if registered s name then (some .duplicateTask, s)
  else (none, { handlers := s.handlers ++ [(name, h)] })

/-- Go runtime panics that `InvokeReply`'s reflection code can raise:
`reflect.Value.Elem` on a non-pointer value, or a failed type
assertion. -/
inductive RPanic where
  | elemOnNonPointer
  | typeAssertion

/-- Kinds of Go values relevant to `InvokeReply`'s `reply` argument. -/
inductive GoKind where
  | ptr
  | intKind
  | stringKind
deriving DecidableEq

/-- Kind of a struct field, as the switch in client.go lines 137-142
distinguishes them: int, string, or anything else. -/
inductive FieldKind where
  | fInt
  | fString
  | fOther

/-- Current value of a struct field. -/
inductive FieldVal where
  | vInt (n : Int)
  | vStr (s : String)
  | vOther

/-- A struct field as seen through reflection: settability, kind and
value. -/
structure Field where
  canSet : Bool
  kind : FieldKind
  val : FieldVal

/-- A Go value passed as the `reply interface{}` argument: a pointer to a
struct, or a plain non-pointer value (int or string); an `interface{}`
parameter always reflects as its concrete dynamic type. -/
inductive GoVal where
  | ptrV (fields : List Field)
  | intV (n : Int)
  | strV (s : String)

/-- The `reflect.Kind` of a Go value. -/
def goKind : GoVal → GoKind
  | .ptrV _ => .ptr
  | .intV _ => .intKind
  | .strV _ => .stringKind

/-- Embedding of `reflect.ValueOf(reply).Elem()` (client.go line 113): yields the
pointed-to struct for a pointer, and panics for any other kind. -/
def valueElem : GoVal → Except RPanic (List Field)
  | .ptrV fields => .ok fields
  | _ => .error .elemOnNonPointer

/-- One iteration of the field loop (client.go lines 127-143): a
non-settable field is skipped; an int field runs `f.SetInt(r.(int64))`
and a string field runs `f.SetString(r.(string))`, each panicking when
the arg's dynamic type mismatches the assertion; any other kind falls
through the switch unchanged. -/
def setField (f : Field) (r : Value) : Except RPanic Field :=
  if !f.canSet then .ok f
  else
    match f.kind with
    | .fInt =>
        match r with
        | .int n => .ok { f with val := .vInt n }
        | _ => .error .typeAssertion
    | .fString =>
        match r with
        | .str s => .ok { f with val := .vStr s }
        | _ => .error .typeAssertion
    | .fOther => .ok f

/-- The field loop over all fields and the reply args pairwise. -/
def setFields : List Field → List Value → Except RPanic (List Field)
  | [], _ => .ok []
  | fs, [] => .ok fs
  | f :: fs, r :: rs => do
      let f2 ← setField f r
      let fs2 ← setFields fs rs
      .ok (f2 :: fs2)

/-- Embedding of `Client.InvokeReply` (client.go lines 111-145), with the result of
the inner `Invoke` call supplied as `invokeRes` (the args/error pair
`Invoke` returns).  Evaluation order follows the source: line 113 takes
`reflect.ValueOf(reply).Elem()` before the pointer-kind check of line
116, so a non-pointer `reply` panics there and the
`"reply must be pointer"` error of lines 117-118 is never reached.
Returns the error result together with the final reply value. -/
def invokeReply (reply : GoVal)
    (invokeRes : Option (List Value) × Option Err) :
    Except RPanic (Option Err × GoVal) := do
  let fields ← valueElem reply
  if goKind reply ≠ .ptr then
    .ok (some .replyMustBePointer, reply)
  else
    let replyArgs := invokeRes.1.getD []
    if invokeRes.2.isSome ∨ fields.length ≠ replyArgs.length then
      .ok (invokeRes.2, reply)
    else do
      let fs2 ← setFields fields replyArgs
      .ok (none, .ptrV fs2)

/-! ## Theorems -/

/-- C1: when `Invoke` receives an Event on the channel's queue, an Event
named `"ERR"` yields its args together with a non-nil error built from
those args, and an Event with any other name yields its args with a nil
error. -/
theorem invoke_recv_event (e : Event) :
    (e.name = "ERR" →
      invokeRecv (.inl e) = (some e.args, some (.remote e.args))) ∧
    (e.name ≠ "ERR" →
      invokeRecv (.inl e) = (some e.args, none)) := by
  constructor <;> intro h <;> simp [invokeRecv, h]

/-- C1 witness: evaluated on a concrete `"ERR"` event and a concrete
`"OK"` event. -/
theorem invoke_recv_event_witness :
    invokeRecv (.inl (mkEv "ERR" [.int 1])) =
      (some [Value.int 1], some (.remote [Value.int 1])) ∧
    invokeRecv (.inl (mkEv "OK" [.int 2])) = (some [Value.int 2], none) :=
  ⟨(invoke_recv_event (mkEv "ERR" [.int 1])).1 rfl,
   (invoke_recv_event (mkEv "OK" [.int 2])).2 (by decide)⟩

/-- C2: in `InvokeStream`, a `"STREAM"` event appends its args and the
loop continues, an `"OK"` event appends and terminates with nil error, an
`"ERR"` event appends and terminates with a non-nil error built from its
args; in particular STREAM(1), STREAM(2), OK(3) yields `[[1],[2],[3]]`
with no error and STREAM(1), STREAM(2), ERR(3) yields the same sequence
with a non-nil error. -/
theorem invoke_stream_events :
    (∀ (e : Event) (rest : List Msg) (out : List (List Value)),
      e.name = "STREAM" →
        invokeStreamLoop (.inl e :: rest) out =
          invokeStreamLoop rest (out ++ [e.args])) ∧
    (∀ (e : Event) (rest : List Msg) (out : List (List Value)),
      e.name = "OK" →
        invokeStreamLoop (.inl e :: rest) out =
          some (some (out ++ [e.args]), none)) ∧
    (∀ (e : Event) (rest : List Msg) (out : List (List Value)),
      e.name = "ERR" →
        invokeStreamLoop (.inl e :: rest) out =
          some (some (out ++ [e.args]), some (.remote e.args))) ∧
    invokeStreamLoop
      [.inl (mkEv "STREAM" [.int 1]), .inl (mkEv "STREAM" [.int 2]),
       .inl (mkEv "OK" [.int 3])] [] =
      some (some [[Value.int 1], [Value.int 2], [Value.int 3]], none) ∧
    invokeStreamLoop
      [.inl (mkEv "STREAM" [.int 1]), .inl (mkEv "STREAM" [.int 2]),
       .inl (mkEv "ERR" [.int 3])] [] =
      some (some [[Value.int 1], [Value.int 2], [Value.int 3]],
            some (.remote [Value.int 3])) := by
  refine ⟨?_, ?_, ?_, rfl, rfl⟩ <;> intro e rest out h <;>
    simp [invokeStreamLoop, h]

/-- C2 witness: the streaming rules evaluated at concrete inputs. -/
theorem invoke_stream_events_witness :
    invokeStreamLoop [.inl (mkEv "STREAM" [.int 7])] [] =
      invokeStreamLoop [] [[Value.int 7]] ∧
    invokeStreamLoop [.inl (mkEv "OK" [.int 8])] [] =
      some (some [[Value.int 8]], none) ∧
    invokeStreamLoop [.inl (mkEv "ERR" [.int 9])] [] =
      some (some [[Value.int 9]], some (.remote [Value.int 9])) :=
  ⟨invoke_stream_events.1 (mkEv "STREAM" [.int 7]) [] [] rfl,
   invoke_stream_events.2.1 (mkEv "OK" [.int 8]) [] [] rfl,
   invoke_stream_events.2.2.1 (mkEv "ERR" [.int 9]) [] [] rfl⟩

/-- C3: decoding the encoding of any Event yields that Event back, with
argument order, heterogeneous value types and header fields preserved. -/
theorem decode_encode (e : Event) : decode (encode e) = .ok e := by
  obtain ⟨⟨mid, rto, ver⟩, name, args⟩ := e
  cases rto <;> cases ver <;>
    simp [encode, encodeHeader, decode, decodeHeader, lookupKey]

/-- C4: an error arriving on the channel's error slot before the next
Event makes `Invoke` return `(nil, err)` and makes `InvokeStream` return
`(nil, err)` with no accumulated result, regardless of what was
accumulated so far. -/
theorem error_slot_immediate (e : Err) (rest : List Msg)
    (out : List (List Value)) :
    invokeRecv (.inr e) = (none, some e) ∧
    invokeStreamLoop (.inr e :: rest) out = some (none, some e) :=
  ⟨rfl, rfl⟩

/-- C5: an Event whose name is none of `"STREAM"`, `"OK"`, `"ERR"` makes
`InvokeStream` return the accumulator as accumulated so far with a nil
error, without appending that Event's args. -/
theorem stream_other_name (e : Event) (rest : List Msg)
    (out : List (List Value)) (h1 : e.name ≠ "STREAM") (h2 : e.name ≠ "OK")
    (h3 : e.name ≠ "ERR") :
    invokeStreamLoop (.inl e :: rest) out = some (some out, none) := by
  simp [invokeStreamLoop, h1, h2, h3]

/-- C5 witness: a `"FOO"` event terminates the stream leniently. -/
theorem stream_other_name_witness :
    invokeStreamLoop [.inl (mkEv "FOO" [.int 9]), .inl (mkEv "OK" [.int 1])]
      [[Value.int 5]] = some (some [[Value.int 5]], none) :=
  stream_other_name (mkEv "FOO" [.int 9]) [.inl (mkEv "OK" [.int 1])]
    [[Value.int 5]] (by decide) (by decide) (by decide)

/-- The `"hello"` handler of the test files: prepend `"Hello,"` to the
first argument. -/
def helloHandler : Handler := fun v =>
  match v with
  | .str s :: _ => (.str ("Hello," ++ s), none)
  | _ => (.str "", some "bad args")

/-- C6: registering a task under an already-registered name fails with
`DuplicateTaskError` and leaves the registry unchanged; registering under
a fresh name succeeds and records the mapping. -/
theorem register_task_duplicate (s : Server) (name : String) (h : Handler) :
    (registered s name = true →
      registerTask s name h = (some .duplicateTask, s)) ∧
    (registered s name = false →
      (registerTask s name h).1 = none ∧
      registered (registerTask s name h).2 name = true) := by
  constructor <;> intro hr
  · simp [registerTask, hr]
  · have h2 : registerTask s name h =
        (none, { handlers := s.handlers ++ [(name, h)] }) := by
      simp [registerTask, hr]
    rw [h2]
    refine ⟨rfl, ?_⟩
    unfold registered
    rw [List.any_append]
    simp

/-- C6 witness: registering `"hello"` twice, as in the server test. -/
theorem register_task_duplicate_witness :
    (registerTask { handlers := [("hello", helloHandler)] } "hello"
       helloHandler =
      (some .duplicateTask, { handlers := [("hello", helloHandler)] })) ∧
    (registerTask { handlers := [] } "hello" helloHandler).1 = none :=
  ⟨(register_task_duplicate { handlers := [("hello", helloHandler)] }
      "hello" helloHandler).1 rfl,
   ((register_task_duplicate { handlers := [] } "hello" helloHandler).2
      rfl).1⟩

/-- C7: a channel that has received nothing for longer than the liveness
threshold 2×H (10 seconds, with H = 5s) is marked Lost by the sweep with
`ErrLostRemote` pushed into its error slot, and a blocked `Invoke` or
`InvokeStream` consuming that error slot returns `ErrLostRemote`. -/
theorem liveness_threshold_lost (now : Nat) (ch : Channel) (rest : List Msg)
    (out : List (List Value)) (h : livenessThreshold < now - ch.lastSeen) :
    heartbeatInterval = 5 ∧ livenessThreshold = 10 ∧
    (sweepChannel now ch).state = .lost ∧
    (sweepChannel now ch).errorSlot = some .lostRemote ∧
    invokeRecv (.inr .lostRemote) = (none, some .lostRemote) ∧
    invokeStreamLoop (.inr .lostRemote :: rest) out =
      some (none, some .lostRemote) := by
  refine ⟨rfl, rfl, ?_, ?_, rfl, rfl⟩ <;> simp [sweepChannel, h]

/-- A concrete open channel last seen at time 0, used as witness data. -/
def ch0 : Channel :=
  { id := "c1", lastSeen := 0, state := .opened, errorSlot := none,
    timerRunning := true }

/-- C7 witness: the channel `ch0`, last seen at time 0, swept at time 11. -/
theorem liveness_threshold_lost_witness :
    (sweepChannel 11 ch0).errorSlot = some .lostRemote :=
  (liveness_threshold_lost 11 ch0 [] [] (by decide)).2.2.2.1

/-- C8: on every exit path of `Invoke` and `InvokeStream` taken after the
channel is opened — send failure, ERR reply, OK reply, stream terminal,
or error-slot error — the channel is closed: its heartbeat timer is
stopped and its entry is unregistered from the Multiplexer. -/
theorem channel_closed_on_exit (mux : Mux) (id : String)
    (mkEvRes : Except Err Event) (sendErr : Option Err) (m : Msg)
    (msgs : List Msg) (ev : Event) (hok : mkEvRes = .ok ev) :
    (id ∉ (invokeFull mux id mkEvRes sendErr m).1.channels ∧
     ∃ ch, (invokeFull mux id mkEvRes sendErr m).2.1 = some ch ∧
       ch.timerRunning = false) ∧
    (∀ r, (invokeStreamFull mux id mkEvRes sendErr msgs).2.2 = some r →
      id ∉ (invokeStreamFull mux id mkEvRes sendErr msgs).1.channels ∧
      ∃ ch, (invokeStreamFull mux id mkEvRes sendErr msgs).2.1 = some ch ∧
        ch.timerRunning = false) := by
  subst hok
  constructor
  · cases sendErr <;>
      exact ⟨by simp [invokeFull, newChannel, closeChannel],
             ⟨_, rfl, rfl⟩⟩
  · intro r hr
    cases sendErr with
    | some e =>
        exact ⟨by simp [invokeStreamFull, newChannel, closeChannel],
               ⟨_, rfl, rfl⟩⟩
    | none =>
        cases hloop : invokeStreamLoop msgs [] with
        | none =>
            exfalso
            simp [invokeStreamFull, hloop] at hr
        | some p =>
            refine ⟨by simp [invokeStreamFull, hloop, newChannel,
              closeChannel], ?_⟩
            refine ⟨(closeChannel (newChannel mux id).1
              (newChannel mux id).2).2, ?_, rfl⟩
            simp [invokeStreamFull, hloop]

/-- C8 witness: a successful OK exchange over a concrete channel id. -/
theorem channel_closed_on_exit_witness :
    "ch1" ∉ (invokeFull { channels := ["other"] } "ch1"
        (.ok (mkEv "hello" [.str "World"])) none
        (.inl (mkEv "OK" [.str "Hello,World"]))).1.channels ∧
    "ch1" ∉ (invokeStreamFull { channels := ["other"] } "ch1"
        (.ok (mkEv "hello" [.str "World"])) none
        [.inl (mkEv "OK" [.str "Hello,World"])]).1.channels :=
  ⟨(channel_closed_on_exit { channels := ["other"] } "ch1"
      (.ok (mkEv "hello" [.str "World"])) none
      (.inl (mkEv "OK" [.str "Hello,World"]))
      [.inl (mkEv "OK" [.str "Hello,World"])] _ rfl).1.1,
   ((channel_closed_on_exit { channels := ["other"] } "ch1"
      (.ok (mkEv "hello" [.str "World"])) none
      (.inl (mkEv "OK" [.str "Hello,World"]))
      [.inl (mkEv "OK" [.str "Hello,World"])] _ rfl).2
      (some [[Value.str "Hello,World"]], none) rfl).1⟩

/-- C9: when the inner `Invoke` succeeds but the number of struct fields
differs from the number of reply args, `InvokeReply` returns a nil error
and leaves every field of the pointed-to struct unchanged. -/
theorem invoke_reply_arity_mismatch (fields : List Field)
    (args : List Value) (h : fields.length ≠ args.length) :
    invokeReply (.ptrV fields) (some args, none) =
      .ok (none, .ptrV fields) := by
  simp [invokeReply, valueElem, goKind, h, Bind.bind, Except.bind]

/-- A concrete settable string field, used as witness data. -/
def field0 : Field := { canSet := true, kind := .fString, val := .vStr "x" }

/-- C9 witness: one string field against an empty successful reply. -/
theorem invoke_reply_arity_mismatch_witness :
    invokeReply (.ptrV [field0]) (some [], none) =
      .ok (none, .ptrV [field0]) :=
  invoke_reply_arity_mismatch [field0] [] (by decide)

/-- C10 evaluation: a non-pointer `reply` argument makes `InvokeReply`
panic in `reflect.Value.Elem` (client.go line 113) before the pointer
check of line 116, for every non-pointer value and in particular for the
input `42`; the `"reply must be pointer"` error is never returned. -/
theorem invoke_reply_nonpointer_panics :
    (∀ (n : Int) (res : Option (List Value) × Option Err),
      invokeReply (.intV n) res = .error .elemOnNonPointer) ∧
    (∀ (s : String) (res : Option (List Value) × Option Err),
      invokeReply (.strV s) res = .error .elemOnNonPointer) ∧
    invokeReply (.intV 42) (some [], none) = .error .elemOnNonPointer :=
  ⟨fun _ _ => rfl, fun _ _ => rfl, rfl⟩

end ZeroRPC
